import Mathlib

/-!
Shallow embedding of the traffic microsimulation core of this repository:
`city_modeling/networkx_graph.py`, `traffic_lights/traffic_lights.py`,
`traffic_generation/poisson_traffic.py` and `legacy_simulation/simulation.py`.

Numbers that Python treats as floats are modelled as exact rationals (`ℚ`).
Python's `%` on nonnegative floats is `pymod` below.  Operations that raise
in Python (missing dictionary keys, `list.index` misses, `route[-1]` on an
empty list) are totalised with explicit defaults; every theorem below only
exercises states where those defaults are not reached, or carries
hypotheses ruling them out.
-/

/-- Python's `%` on rationals: `a - b * floor (a / b)`; for `b > 0` the
result lies in `[0, b)`, matching Python float `%`. -/
def pymod (a b : ℚ) : ℚ := a - b * (⌊a / b⌋ : ℚ)

/-- Road record, the edge payload stored by `CityGraph.add_road`
(`city_modeling/networkx_graph.py`): static attributes plus the live
`current_flow` counter. -/
structure Road where
  length : ℚ
  speed_limit : ℚ
  lanes : ℕ
  travel_time : ℚ
  capacity : ℚ
  current_flow : ℕ
deriving DecidableEq

/-- Default used only to totalise a road lookup that would raise `KeyError`
in Python. -/
def defaultRoad : Road := ⟨0, 0, 0, 0, 0, 0⟩

/-- Association-list lookup of a node's attribute (its optional position).
`none` as outer result means the node is absent; `some none` means the node
exists but has no `pos` attribute (networkx nodes created implicitly by
`add_edge`). -/
def lookupNode : List (ℕ × Option (ℚ × ℚ)) → ℕ → Option (Option (ℚ × ℚ))
  | [], _ => none
  | (j, q) :: rest, i => if j = i then some q else lookupNode rest i

/-- networkx `add_node` semantics: if the node exists its attributes are
updated in place, otherwise it is appended. -/
def setNodePos : List (ℕ × Option (ℚ × ℚ)) → ℕ → (ℚ × ℚ) → List (ℕ × Option (ℚ × ℚ))
  | [], i, p => [(i, some p)]
  | (j, q) :: rest, i, p =>
    if j = i then (j, some p) :: rest else (j, q) :: setNodePos rest i p

/-- networkx `add_edge` creates missing endpoint nodes implicitly, with no
attributes. -/
def ensureNode (ns : List (ℕ × Option (ℚ × ℚ))) (i : ℕ) : List (ℕ × Option (ℚ × ℚ)) :=
  if (lookupNode ns i).isSome then ns else ns ++ [(i, none)]

/-- Association-list lookup of the road stored on a directed edge. -/
def lookupRoad : List ((ℕ × ℕ) × Road) → (ℕ × ℕ) → Option Road
  | [], _ => none
  | (d, s) :: rest, e => if d = e then some s else lookupRoad rest e

/-- networkx `add_edge` payload write: overwrite if present, append if not. -/
def setRoad : List ((ℕ × ℕ) × Road) → (ℕ × ℕ) → Road → List ((ℕ × ℕ) × Road)
  | [], e, r => [(e, r)]
  | (d, s) :: rest, e, r =>
    if d = e then (d, r) :: rest else (d, s) :: setRoad rest e r

/-- The directed city graph of `city_modeling/networkx_graph.py`, an
`nx.DiGraph` with per-node `pos` and per-edge road attributes. -/
structure CityGraph where
  nodes : List (ℕ × Option (ℚ × ℚ))
  edges : List ((ℕ × ℕ) × Road)
deriving DecidableEq

/-- `CityGraph.add_intersection`: plain `nx.DiGraph.add_node`, which never
rejects — an existing node has its `pos` attribute overwritten. -/
def add_intersection (g : CityGraph) (node_id : ℕ) (pos : ℚ × ℚ) : CityGraph :=
  { g with nodes := setNodePos g.nodes node_id pos }

/-- `CityGraph.add_road`: computes `travel_time = length / (speed_limit / 3.6)`
and `capacity = lanes * 1800`, then `nx.DiGraph.add_edge`, which silently
creates missing endpoint nodes and never rejects. -/
def add_road (g : CityGraph) (a b : ℕ) (length speed_limit : ℚ) (lanes : ℕ) : CityGraph :=
  { nodes := ensureNode (ensureNode g.nodes a) b,
    edges := setRoad g.edges (a, b)
      { length := length
        speed_limit := speed_limit
        lanes := lanes
        travel_time := length / (speed_limit / (18/5))
        capacity := (lanes : ℚ) * 1800
        current_flow := 0 } }

/-- A signal phase (`traffic_lights.py`): permitted directed movements and a
duration in seconds. -/
structure Phase where
  allowed_edges : List (ℕ × ℕ)
  duration : ℚ
deriving DecidableEq

/-- A `TrafficLight`: intersection id, total cycle time, clock within the
cycle, ordered phases and a diagnostic cycle counter.  The constructor also
rejects non-positive `cycle_time`; all states below have `cycle_time > 0`. -/
structure TrafficLight where
  intersection_id : ℕ
  cycle_time : ℚ
  current_time : ℚ
  phases : List Phase
  cycle_count : ℕ
deriving DecidableEq

/-- `TrafficLight.update(time_step)`: advance the in-cycle clock modulo
`cycle_time`, bumping the cycle counter when the clock wraps. -/
def TrafficLight.update (l : TrafficLight) (time_step : ℚ) : TrafficLight :=
  let nt := pymod (l.current_time + time_step) l.cycle_time
  { l with current_time := nt
           cycle_count := if nt < l.current_time then l.cycle_count + 1 else l.cycle_count }

/-- The phase scan inside `TrafficLight.is_green`: accumulate elapsed
durations; the phase whose interval `[elapsed, elapsed + duration)` contains
the clock decides, and falling off the end of the list yields red. -/
def greenScan (t : ℚ) (e : ℕ × ℕ) : ℚ → List Phase → Bool
  | _, [] => false
  | elapsed, p :: ps =>
    if elapsed ≤ t ∧ t < elapsed + p.duration then decide (e ∈ p.allowed_edges)
    else greenScan t e (elapsed + p.duration) ps

/-- `TrafficLight.is_green(edge)`: fail open on an empty phase list, else
scan the phases. -/
def TrafficLight.is_green (l : TrafficLight) (e : ℕ × ℕ) : Bool :=
  if l.phases = [] then true else greenScan l.current_time e 0 l.phases

/-- Sum of the phase durations of a light, as in
`TrafficLightSystem.add_traffic_light`. -/
def sumDurations (ps : List Phase) : ℚ := (ps.map Phase.duration).sum

/-- Python's `math.isclose` with its default tolerances (`rel_tol = 1e-9`,
`abs_tol = 0`). -/
def isclose (a b : ℚ) : Bool := decide (|a - b| ≤ (1 / 1000000000) * max |a| |b|)

/-- Association-list lookup of the light controlling an intersection. -/
def lookupLight : List (ℕ × TrafficLight) → ℕ → Option TrafficLight
  | [], _ => none
  | (j, l) :: rest, i => if j = i then some l else lookupLight rest i

/-- Dictionary write used by `add_traffic_light`. -/
def setLight : List (ℕ × TrafficLight) → ℕ → TrafficLight → List (ℕ × TrafficLight)
  | [], i, l => [(i, l)]
  | (j, m) :: rest, i, l =>
    if j = i then (j, l) :: rest else (j, m) :: setLight rest i l

/-- The `TrafficLightSystem`: a dictionary from intersection id to light. -/
structure TrafficLightSystem where
  traffic_lights : List (ℕ × TrafficLight)
deriving DecidableEq

/-- `TrafficLightSystem.add_traffic_light`: raises `ValueError` unless the
phase durations sum to the cycle time *up to `math.isclose`*; on success the
light is stored under its intersection id. -/
def add_traffic_light (sys : TrafficLightSystem) (l : TrafficLight) :
    Except String TrafficLightSystem :=
  if isclose (sumDurations l.phases) l.cycle_time then
    .ok ⟨setLight sys.traffic_lights l.intersection_id l⟩
  else
    .error "Sum of phase durations does not equal the total cycle time."

/-- `TrafficLightSystem.update(time_step)`: advance every light. -/
def TrafficLightSystem.update (sys : TrafficLightSystem) (time_step : ℚ) : TrafficLightSystem :=
  ⟨sys.traffic_lights.map (fun p => (p.1, p.2.update time_step))⟩

/-- `TrafficLightSystem.is_green(edge)`: delegate to the light at the edge's
start node if one exists, else always green. -/
def TrafficLightSystem.is_green (sys : TrafficLightSystem) (e : ℕ × ℕ) : Bool :=
  match lookupLight sys.traffic_lights e.1 with
  | some l => l.is_green e
  | none => true

/-- Sum of all diagnostic cycle counters
(`sum(get_cycle_counts().values())`). -/
def totalCycleCount (sys : TrafficLightSystem) : ℕ :=
  (sys.traffic_lights.map (fun p => p.2.cycle_count)).sum

/-- The vehicle record built by
`TrafficGenerator.generate_vehicles` and mutated by the simulation.
`completion_time = -1` is the "not completed" sentinel; `last_position` is
the key `move_vehicles` adds lazily via `vehicle.get("last_position", None)`. -/
structure Vehicle where
  id : ℕ
  start : ℕ
  destination : ℕ
  current_position : ℕ
  entry_time : ℚ
  route : List ℕ
  completion_time : ℚ
  total_wait_time : ℚ
  current_edge : Option (ℕ × ℕ)
  progress_on_edge : ℚ
  travel_time_remaining : ℚ
  last_position : Option ℕ
deriving DecidableEq

/-- The state of the external random number generators (`numpy.random` and
`random`), made explicit: a seed-determined stream of raw draws and a
cursor.  Seeding fixes `stream`; every draw advances `idx`. -/
structure DrawState where
  stream : ℕ → ℕ
  idx : ℕ

/-- Consume one raw draw from the generator state. -/
def draw (s : DrawState) : ℕ × DrawState := (s.stream s.idx, ⟨s.stream, s.idx + 1⟩)

/-- `random.sample(entry_exit_nodes, 2)`: two distinct nodes, the second
chosen from the list with the first removed.  The external sampler is
modelled as consuming two raw draws. -/
def sampleTwo (nodes : List ℕ) (s : DrawState) : (ℕ × ℕ) × DrawState :=
  let d1 := draw s
  let i := d1.1 % nodes.length
  let a := nodes.getD i 0
  let rest := nodes.eraseIdx i
  let d2 := draw d1.2
  let b := rest.getD (d2.1 % rest.length) 0
  ((a, b), d2.2)

/-- A freshly generated vehicle, with the exact field initialisation of
`generate_vehicles` (`id = len(vehicles) + 1`, position at the origin, all
sentinels). -/
def freshVehicle (n a b : ℕ) (t : ℚ) (route : List ℕ) : Vehicle :=
  { id := n
    start := a
    destination := b
    current_position := a
    entry_time := t
    route := route
    completion_time := -1
    total_wait_time := 0
    current_edge := none
    progress_on_edge := 0
    travel_time_remaining := 0
    last_position := none }

/-- The inner loop of `generate_vehicles` for one tick: `k` arrivals, each
sampling an origin/destination pair and routing via the external
shortest-path oracle `sp` (`nx.shortest_path` weighted by free-flow
`travel_time`; `none` models `NetworkXNoPath`, degenerating the route to
`[origin]`). -/
def genArrivals (sp : ℕ → ℕ → Option (List ℕ)) (nodes : List ℕ) (t : ℚ) :
    ℕ → List Vehicle → DrawState → List Vehicle × DrawState
  | 0, acc, s => (acc, s)
  | k + 1, acc, s =>
    let r := sampleTwo nodes s
    let route := (sp r.1.1 r.1.2).getD [r.1.1]
    genArrivals sp nodes t k (acc ++ [freshVehicle (acc.length + 1) r.1.1 r.1.2 t route]) r.2

/-- The outer loop of `generate_vehicles` over ticks `t, t+1, …` with `n`
ticks remaining; `pois` is the external Poisson sampler
(`np.random.poisson`), consuming one raw draw per tick. -/
def genTicks (pois : ℚ → ℕ → ℕ) (sp : ℕ → ℕ → Option (List ℕ)) (nodes : List ℕ)
    (rate : ℚ) : ℕ → ℕ → List Vehicle → DrawState → List Vehicle × DrawState
  | _, 0, acc, s => (acc, s)
  | t, n + 1, acc, s =>
    let d := draw s
    let k := pois rate d.1
    let r := genArrivals sp nodes (t : ℚ) k acc d.2
    genTicks pois sp nodes rate (t + 1) n r.1 r.2

/-- `TrafficGenerator.generate_vehicles`
(`traffic_generation/poisson_traffic.py`): rejects fewer than two
entry/exit nodes, then for each tick in `[0, simulation_time)` draws a
Poisson count at rate `arrival_rate / 60` and generates that many vehicles.
All randomness is the explicit `DrawState`. -/
def generate_vehicles (pois : ℚ → ℕ → ℕ) (sp : ℕ → ℕ → Option (List ℕ))
    (nodes : List ℕ) (arrival_rate : ℚ) (simulation_time : ℕ) (s : DrawState) :
    Except String (List Vehicle) :=
  if nodes.length < 2 then .error "City graph must have at least 2 entry/exit nodes"
  else .ok (genTicks pois sp nodes (arrival_rate / 60) 0 simulation_time [] s).1

/-- The state of a `TrafficSimulation` (`legacy_simulation/simulation.py`):
the graph's edge dictionary, the light system, the vehicle list, the clock
and the constants set in `__init__` (`time_step` from the config,
`simulation_speed = 0.05`, `vehicle_speed_factor = 2.0`). -/
structure SimState where
  graph : List ((ℕ × ℕ) × Road)
  lights : TrafficLightSystem
  vehicles : List Vehicle
  simulation_time : ℚ
  time_step : ℚ
  simulation_speed : ℚ
  vehicle_speed_factor : ℚ
  traffic_light_cycles : ℕ
deriving DecidableEq

/-- The BPR congestion multiplier computed in `move_vehicles`:
`1 + 0.15 * (current_flow / capacity)^4` when `capacity > 0`, else `1`.
The source's two branches around `flow_ratio < 1` hold the same expression
and are kept verbatim. -/
def congestionFactor (r : Road) : ℚ :=
  if 0 < r.capacity then
    if (r.current_flow : ℚ) / r.capacity < 1 then
      1 + (3/20) * ((r.current_flow : ℚ) / r.capacity) ^ 4
    else
      1 + (3/20) * ((r.current_flow : ℚ) / r.capacity) ^ 4
  else 1

/-- Total road lookup (`self.city_graph[u][v]` raises in Python when the
edge is missing; theorems only reach existing edges). -/
def roadAt (g : List ((ℕ × ℕ) × Road)) (e : ℕ × ℕ) : Road :=
  (lookupRoad g e).getD defaultRoad

/-- Python's `route[-1]`, totalised (raises on `[]` in Python; routes are
never empty in generated states). -/
def lastD (l : List ℕ) : ℕ := l.getLastD 0

/-- Number of vehicles currently occupying edge `e`; the flow
reset-and-count loop of `move_vehicles` stores exactly this on each edge. -/
def flowCount (vs : List Vehicle) (e : ℕ × ℕ) : ℕ :=
  (vs.filter (fun v => decide (v.current_edge = some e))).length

/-- Step 1 of `move_vehicles`: zero every edge's `current_flow`, then count
the vehicles occupying each edge. -/
def resetAndCount (g : List ((ℕ × ℕ) × Road)) (vs : List Vehicle) :
    List ((ℕ × ℕ) × Road) :=
  g.map (fun p => (p.1, { p.2 with current_flow := flowCount vs p.1 }))

/-- The trailing completion check of the per-vehicle body: a vehicle now at
its route's last node with the sentinel still set is stamped with the
current simulated time. -/
def finishCheck (t : ℚ) (v : Vehicle) : Vehicle :=
  if v.current_position = lastD v.route ∧ v.completion_time = -1 then
    { v with completion_time := t }
  else v

/-- One vehicle's update in `move_vehicles`, reading the frozen flow
snapshot `g`.  Mirrors the source body: entry-time skip; early `continue`
for a vehicle already at its route's last node (which only refreshes
`last_position` and never touches `completion_time`); edge traversal with
the BPR factor and `vehicle_speed_factor`; node-to-edge transition gated by
the signal (a red light accumulates wait time, and the
`simulation_time % 5 == 0` debug guard `continue`s past the completion
check); then the completion check. -/
def stepVehicle (g : List ((ℕ × ℕ) × Road)) (lights : TrafficLightSystem)
    (sim_time time_step speed_factor : ℚ) (v : Vehicle) : Vehicle :=
  if sim_time < v.entry_time then v
  else if v.current_position = lastD v.route then
    if some v.current_position ≠ v.last_position then
      { v with last_position := some v.current_position }
    else v
  else
    match v.current_edge with
    | some se =>
      let c := congestionFactor (roadAt g se)
      let ttr := v.travel_time_remaining - time_step * speed_factor / c
      finishCheck sim_time <|
        if ttr ≤ 0 then
          { v with current_position := se.2
                   current_edge := none
                   progress_on_edge := 0
                   travel_time_remaining := ttr }
        else
          { v with travel_time_remaining := ttr
                   progress_on_edge := 1 - ttr / ((roadAt g se).travel_time * c) }
    | none =>
      if v.completion_time ≠ -1 then v
      else
        let idx := v.route.indexOf v.current_position + 1
        if idx < v.route.length then
          let e := (v.current_position, v.route.getD idx 0)
          if lights.is_green e then
            let c := congestionFactor (roadAt g e)
            finishCheck sim_time
              { v with current_edge := some e
                       travel_time_remaining := (roadAt g e).travel_time * c
                       progress_on_edge := 0 }
          else
            let vw := { v with total_wait_time := v.total_wait_time + time_step }
            if pymod sim_time 5 = 0 then vw else finishCheck sim_time vw
        else finishCheck sim_time v

/-- `TrafficSimulation.move_vehicles(time_step)`: advance the lights by
`simulation_speed` (a hard-coded visualisation constant, not `time_step`),
refresh the diagnostic cycle total, reset-and-count flows, then update
every vehicle against the frozen snapshot. -/
def moveVehicles (st : SimState) (time_step : ℚ) : SimState :=
  let lights1 := st.lights.update st.simulation_speed
  let graph1 := resetAndCount st.graph st.vehicles
  { st with
      lights := lights1
      traffic_light_cycles := totalCycleCount lights1
      graph := graph1
      vehicles := st.vehicles.map
        (stepVehicle graph1 lights1 st.simulation_time time_step st.vehicle_speed_factor) }

/-- One iteration of the `run_simulation` while-loop (headless path):
`move_vehicles(time_step)`, then a second light update by `time_step`, then
the clock advances. -/
def simTick (st : SimState) : SimState :=
  let st1 := moveVehicles st st.time_step
  { st1 with
      lights := st1.lights.update st.time_step
      simulation_time := st1.simulation_time + st.time_step }

/-- `run_simulation` iterated for `n` ticks (the while-loop runs while
`simulation_time < total_time`, i.e. `⌈total_time / time_step⌉` times). -/
def runSim (st : SimState) : ℕ → SimState
  | 0 => st
  | n + 1 => runSim (simTick st) n

/-- `TrafficSimulation.get_average_travel_time`: over the vehicles whose
`current_position` equals their route's last node, the mean of
`simulation_time - entry_time` (note: the *current* clock, not the
vehicle's `completion_time`), `0` when none qualify. -/
def get_average_travel_time (st : SimState) : ℚ :=
  let completed := st.vehicles.filter (fun v => decide (v.current_position = lastD v.route))
  if completed.length = 0 then 0
  else (completed.map (fun v => st.simulation_time - v.entry_time)).sum / completed.length

/-- Follows the spec's words, for comparison with
`get_average_travel_time`: the arithmetic mean, over completed vehicles, of
`completion_time - entry_time`. -/
def avgTravelTimeSpec (st : SimState) : ℚ :=
  let completed := st.vehicles.filter (fun v => decide (v.completion_time ≠ -1))
  if completed.length = 0 then 0
  else (completed.map (fun v => v.completion_time - v.entry_time)).sum / completed.length

/-- Sum of all live flow counters over the roads of a graph. -/
def sumFlows (g : List ((ℕ × ℕ) × Road)) : ℕ :=
  (g.map (fun p => p.2.current_flow)).sum

/-- Number of vehicles whose `current_edge` is set. -/
def onEdgeCount (vs : List Vehicle) : ℕ :=
  (vs.filter (fun v => decide (v.current_edge ≠ none))).length

/-- Initial simulation state as built by `TrafficSimulation.__init__`:
clock at `0`, `simulation_speed = 0.05`, `vehicle_speed_factor = 2.0`. -/
def initState (g : List ((ℕ × ℕ) × Road)) (lights : TrafficLightSystem)
    (vs : List Vehicle) (dt : ℚ) : SimState :=
  { graph := g
    lights := lights
    vehicles := vs
    simulation_time := 0
    time_step := dt
    simulation_speed := 1/20
    vehicle_speed_factor := 2
    traffic_light_cycles := 0 }

/-! ### Concrete scenario data used by the theorems below -/

/-- A light whose single phase covers only 2000000000 of its 2000000001
cycle seconds: the sums differ, yet `math.isclose` accepts it. -/
def badLight : TrafficLight := ⟨7, 2000000001, 0, [⟨[], 2000000000⟩], 0⟩

/-- The one-node graph `{1 ↦ (0, 0)}` used to refute C6 as stated. -/
def g1 : CityGraph := add_intersection ⟨[], []⟩ 1 (0, 0)

/-- A light and a state for the C2 counterexample: one signal, cycle 60,
clock at 0, in a simulation with `time_step = 1` and the source's
`simulation_speed = 0.05`. -/
def tlC2 : TrafficLight := ⟨1, 60, 0, [⟨[(1, 2)], 30⟩, ⟨[(2, 1)], 30⟩], 0⟩

/-- Simulation state holding only `tlC2`, as `__init__` would build it. -/
def stC2 : SimState := ⟨[], ⟨[(1, tlC2)]⟩, [], 0, 1, 1/20, 2, 0⟩


/-- Road of the free-flow scenario (length 100 m, 36 km/h, 1 lane,
free-flow travel time 10 s, capacity 1800), with live flow `f`. -/
def c1road (f : ℕ) : Road := ⟨100, 36, 1, 10, 1800, f⟩

/-- The single vehicle of the free-flow scenario, route `1 → 2`,
entry tick 0, parametrised by its mutable fields. -/
def c1veh (pos : ℕ) (ct : ℚ) (ce : Option (ℕ × ℕ)) (pr ttr : ℚ) (lp : Option ℕ) : Vehicle :=
  ⟨1, 1, 2, pos, 0, [1, 2], ct, 0, ce, pr, ttr, lp⟩

/-- Free-flow scenario state: the 2-node/1-edge network, no signals, one
vehicle, `time_step = 1` and the `__init__` constants. -/
def c1st (f : ℕ) (v : Vehicle) (time : ℚ) : SimState :=
  ⟨[((1, 2), c1road f)], ⟨[]⟩, [v], time, 1, 1/20, 2, 0⟩

/-- Initial state of the free-flow concrete scenario of the spec. -/
def st0 : SimState := c1st 0 (c1veh 1 (-1) none 0 0 none) 0

/-- State after tick 0: the vehicle entered the edge at congestion 1. -/
def c1s1 : SimState := c1st 0 (c1veh 1 (-1) (some (1, 2)) 0 10 none) 1

/-- State after tick 1: the vehicle itself is now counted in
`current_flow`, so the BPR factor is `1 + 0.15/1800^4` and each tick
removes `2 / (1 + 1/69984000000000)` seconds. -/
def c1s2 : SimState := c1st 1 (c1veh 1 (-1) (some (1, 2))
  (979552051200069984000000001/4897760256000139968000000001)
  (559872000000010/69984000000001) none) 2

/-- State after tick 2. -/
def c1s3 : SimState := c1st 1 (c1veh 1 (-1) (some (1, 2))
  (1959104102400069984000000001/4897760256000139968000000001)
  (419904000000010/69984000000001) none) 3

/-- State after tick 3. -/
def c1s4 : SimState := c1st 1 (c1veh 1 (-1) (some (1, 2))
  (2938656153600069984000000001/4897760256000139968000000001)
  (279936000000010/69984000000001) none) 4

/-- State after tick 4. -/
def c1s5 : SimState := c1st 1 (c1veh 1 (-1) (some (1, 2))
  (3918208204800069984000000001/4897760256000139968000000001)
  (139968000000010/69984000000001) none) 5

/-- State after tick 5: a residue of `10/69984000000001` seconds remains,
so the vehicle has not yet arrived. -/
def c1s6 : SimState := c1st 1 (c1veh 1 (-1) (some (1, 2))
  (4897760256000069984000000001/4897760256000139968000000001)
  (10/69984000000001) none) 6

/-- State after tick 6: the vehicle arrives and `completion_time = 6`. -/
def c1s7 : SimState := c1st 1 (c1veh 2 6 none 0
  (-139967999999990/69984000000001) none) 7

/-- State after tick 7: the completed vehicle is skipped, only
`last_position` is refreshed. -/
def c1s8 : SimState := c1st 0 (c1veh 2 6 none 0
  (-139967999999990/69984000000001) (some 2)) 8

/-- State after tick 8. -/
def c1s9 : SimState := c1st 0 (c1veh 2 6 none 0
  (-139967999999990/69984000000001) (some 2)) 9

/-- State after tick 9. -/
def c1s10 : SimState := c1st 0 (c1veh 2 6 none 0
  (-139967999999990/69984000000001) (some 2)) 10

/-- One-edge flow snapshot graph used by several witnesses. -/
def gW : List ((ℕ × ℕ) × Road) := [((1, 2), c1road 0)]

/-- A vehicle already standing at its route's last node, sentinel still
set (as a degenerate or just-arrived vehicle would be). -/
def vAtEnd : Vehicle := c1veh 2 (-1) none 0 0 none

/-- A vehicle whose completion time was already stamped at tick 7. -/
def vDone7 : Vehicle := c1veh 1 7 none 0 0 none

/-- A vehicle one decrement away from clearing its final edge. -/
def vArr : Vehicle := c1veh 1 (-1) (some (1, 2)) 0 1 none

/-- A vehicle freshly entered on the witness edge. -/
def vFresh : Vehicle := c1veh 1 (-1) (some (1, 2)) 0 10 none

/-- The witness road under heavy occupancy (3600 vehicles against
capacity 1800, BPR factor 3.4). -/
def roadHi : Road := ⟨100, 36, 1, 10, 1800, 3600⟩

/-- The same road after the flow drops to zero (BPR factor 1). -/
def roadLo : Road := ⟨100, 36, 1, 10, 1800, 0⟩

/-- Flow snapshots of the two consecutive ticks of the C7 counterexample. -/
def gHi : List ((ℕ × ℕ) × Road) := [((1, 2), roadHi)]

/-- Flow snapshot of the second tick of the C7 counterexample. -/
def gLo : List ((ℕ × ℕ) × Road) := [((1, 2), roadLo)]

/-- The C7 vehicle, having just entered the congested edge
(`travel_time_remaining = 10 * 3.4 = 34`). -/
def vOn : Vehicle := c1veh 1 (-1) (some (1, 2)) 0 34 none

/-- The C7 vehicle after one tick under flow 3600. -/
def vMid : Vehicle := c1veh 1 (-1) (some (1, 2)) (5/289) (568/17) none

/-- The C7 vehicle after a second tick under flow 0: its
`progress_on_edge` has *decreased* (to a negative value). -/
def vEnd : Vehicle := c1veh 1 (-1) (some (1, 2)) (-182/85) (534/17) none

/-- A vehicle with the degenerate single-node route `[1]` (no path found
at generation time). -/
def vDeg : Vehicle := ⟨1, 1, 1, 1, 0, [1], -1, 0, none, 0, 0, none⟩

/-- The degenerate vehicle after its first skip: only `last_position`
was refreshed, the sentinel survives. -/
def vDegMarked : Vehicle := ⟨1, 1, 1, 1, 0, [1], -1, 0, none, 0, 0, some 1⟩

/-- Simulation state around a single degenerate vehicle. -/
def c5st (v : Vehicle) (time : ℚ) : SimState := ⟨[], ⟨[]⟩, [v], time, 1, 1/20, 2, 0⟩

/-- Initial state of the C5 counterexample. -/
def stC5 : SimState := c5st vDeg 0

/-- C5 counterexample state after tick 0. -/
def c5s1 : SimState := c5st vDegMarked 1

/-- C5 counterexample state after tick 1. -/
def c5s2 : SimState := c5st vDegMarked 2

/-- C5 counterexample state after tick 2. -/
def c5s3 : SimState := c5st vDegMarked 3

/-- A vehicle that entered at tick 0 and completed its trip at tick 5. -/
def vDone : Vehicle := c1veh 2 5 none 0 0 (some 2)

/-- Metrics-query state for C9: the completed vehicle queried at
`simulation_time = 20`. -/
def stC9 : SimState := c1st 0 vDone 20

/-- Witness state for C4: one vehicle occupying the single edge. -/
def stC4w : SimState := c1st 0 (c1veh 1 (-1) (some (1, 2)) 0 10 none) 3

/-! ### Basic lemmas about the embedded operations -/

theorem none_ne_someEdge (e : ℕ × ℕ) : ¬ (none : Option (ℕ × ℕ)) = some e := by simp


theorem pymod_eq_self (a b : ℚ) (h0 : 0 ≤ a) (hab : a < b) : pymod a b = a := by
  have hb : 0 < b := lt_of_le_of_lt h0 hab
  have hf : ⌊a / b⌋ = 0 := by
    rw [Int.floor_eq_zero_iff, Set.mem_Ico]
    exact ⟨div_nonneg h0 hb.le, (div_lt_one hb).mpr hab⟩
  simp [pymod, hf]

theorem one_le_congestionFactor (r : Road) : 1 ≤ congestionFactor r := by
  unfold congestionFactor
  split
  · have h4 : 0 ≤ ((r.current_flow : ℚ) / r.capacity) ^ 4 := by positivity
    split <;> nlinarith
  · exact le_refl 1

theorem congestionFactor_pos (r : Road) : 0 < congestionFactor r :=
  lt_of_lt_of_le one_pos (one_le_congestionFactor r)

theorem finishCheck_ttr (t : ℚ) (v : Vehicle) :
    (finishCheck t v).travel_time_remaining = v.travel_time_remaining := by
  unfold finishCheck
  split <;> rfl

theorem finishCheck_progress (t : ℚ) (v : Vehicle) :
    (finishCheck t v).progress_on_edge = v.progress_on_edge := by
  unfold finishCheck
  split <;> rfl

theorem finishCheck_completion_ne (t : ℚ) (v : Vehicle) (h : v.completion_time ≠ -1) :
    (finishCheck t v).completion_time = v.completion_time := by
  unfold finishCheck
  rw [if_neg]
  rintro ⟨-, hc⟩
  exact h hc

/-! ### C10: the signal fails closed past the covered phase intervals -/

theorem greenScan_eq_false (t : ℚ) (e : ℕ × ℕ) :
    ∀ (ps : List Phase) (elapsed : ℚ),
      (∀ p ∈ ps, 0 ≤ p.duration) → elapsed + sumDurations ps ≤ t →
      greenScan t e elapsed ps = false := by
  intro ps
  induction ps with
  | nil => intro elapsed _ _; rfl
  | cons p ps ih =>
    intro elapsed hnn hle
    have hsum : 0 ≤ sumDurations ps := by
      unfold sumDurations
      apply List.sum_nonneg
      intro x hx
      obtain ⟨q, hq, rfl⟩ := List.mem_map.mp hx
      exact hnn q (List.mem_cons_of_mem _ hq)
    have hle' : elapsed + p.duration + sumDurations ps ≤ t := by
      have : sumDurations (p :: ps) = p.duration + sumDurations ps := by
        simp [sumDurations]
      linarith [this ▸ hle]
    show (if elapsed ≤ t ∧ t < elapsed + p.duration then decide (e ∈ p.allowed_edges)
          else greenScan t e (elapsed + p.duration) ps) = false
    rw [if_neg]
    · exact ih (elapsed + p.duration) (fun q hq => hnn q (List.mem_cons_of_mem _ hq)) hle'
    · rintro ⟨-, h2⟩
      linarith

/-- C10: for every Signal with a non-empty phase list (and nonnegative
durations, as all configured durations are), whenever `current_time` lies
at or past the sum of the phase durations, `is_green` returns false for
every edge: the signal fails closed outside the covered intervals, unlike
the fail-open behaviour of an empty phase list. -/
theorem C10_signal_fails_closed (l : TrafficLight) (e : ℕ × ℕ)
    (hne : l.phases ≠ [])
    (hnn : ∀ p ∈ l.phases, 0 ≤ p.duration)
    (ht : sumDurations l.phases ≤ l.current_time) :
    l.is_green e = false := by
  unfold TrafficLight.is_green
  rw [if_neg hne]
  exact greenScan_eq_false _ _ _ 0 hnn (by linarith)

/-- Witness for C10: a light with a single 30-second phase inside a
60-second cycle, clock at 45, shows red to the very edge its phase
permits. -/
theorem C10_signal_fails_closed_witness :
    TrafficLight.is_green ⟨1, 60, 45, [⟨[(1, 2)], 30⟩], 0⟩ (1, 2) = false := by
  apply C10_signal_fails_closed
  · simp
  · intro p hp
    rw [List.mem_singleton] at hp
    subst hp
    norm_num
  · show sumDurations [⟨[(1, 2)], 30⟩] ≤ 45
    simp [sumDurations]
    norm_num

/-! ### C3: registration uses `math.isclose`, not exact equality -/

/-- C3 amended: registering a Signal succeeds whenever the phase durations
sum *exactly* to `cycle_time`, and raises whenever the sum differs from
`cycle_time` by more than the relative tolerance `1e-9` of `math.isclose`;
in between (unequal but within tolerance) registration silently succeeds. -/
theorem C3_registration_isclose (sys : TrafficLightSystem) (l : TrafficLight) :
    (sumDurations l.phases = l.cycle_time →
      add_traffic_light sys l = .ok ⟨setLight sys.traffic_lights l.intersection_id l⟩) ∧
    ((1 / 1000000000) * max |sumDurations l.phases| |l.cycle_time| <
        |sumDurations l.phases - l.cycle_time| →
      add_traffic_light sys l =
        .error "Sum of phase durations does not equal the total cycle time.") := by
  constructor
  · intro h
    unfold add_traffic_light
    rw [if_pos]
    unfold isclose
    rw [decide_eq_true_eq, h, sub_self, abs_zero]
    positivity
  · intro h
    unfold add_traffic_light
    rw [if_neg]
    unfold isclose
    simp only [decide_eq_true_eq, not_le]
    exact h

/-- Witness for C3's amended statement: a light whose durations sum exactly
to its cycle is accepted; one 50 seconds short of its 60-second cycle is
rejected. -/
theorem C3_registration_isclose_witness :
    add_traffic_light ⟨[]⟩ ⟨3, 60, 0, [⟨[(1, 2)], 30⟩, ⟨[(2, 1)], 30⟩], 0⟩ =
      .ok ⟨setLight ([])
        (TrafficLight.intersection_id ⟨3, 60, 0, [⟨[(1, 2)], 30⟩, ⟨[(2, 1)], 30⟩], 0⟩)
        ⟨3, 60, 0, [⟨[(1, 2)], 30⟩, ⟨[(2, 1)], 30⟩], 0⟩⟩ ∧
    add_traffic_light ⟨[]⟩ ⟨4, 60, 0, [⟨[], 10⟩], 0⟩ =
      .error "Sum of phase durations does not equal the total cycle time." := by
  constructor
  · exact (C3_registration_isclose ⟨[]⟩ _).1 (by simp [sumDurations]; norm_num)
  · apply (C3_registration_isclose ⟨[]⟩ _).2
    show (1 / 1000000000 : ℚ) * max |sumDurations [⟨[], 10⟩]| |(60 : ℚ)| < _
    have h1 : sumDurations [(⟨[], 10⟩ : Phase)] = 10 := by simp [sumDurations]
    rw [h1, show |(10 : ℚ) - 60| = 50 by
        rw [show (10 : ℚ) - 60 = -50 by norm_num, abs_neg, abs_of_nonneg] <;> norm_num,
      abs_of_nonneg (by norm_num : (0:ℚ) ≤ 10), abs_of_nonneg (by norm_num : (0:ℚ) ≤ 60),
      max_eq_right (by norm_num : (10:ℚ) ≤ 60)]
    norm_num

/-- C3 counterexample: the claim "for every Signal whose phase durations do
not sum to its cycle_time, registration raises" is false: `badLight`'s
durations do not sum to `cycle_time`, yet `add_traffic_light` accepts it,
because the source checks `math.isclose` (relative tolerance `1e-9`), not
equality. -/
theorem C3_counterexample :
    add_traffic_light ⟨[]⟩ badLight = .ok ⟨[(7, badLight)]⟩ ∧
    sumDurations badLight.phases ≠ badLight.cycle_time := by
  constructor
  · unfold add_traffic_light
    rw [if_pos]
    · rfl
    · unfold isclose
      rw [decide_eq_true_eq]
      have h1 : sumDurations badLight.phases = 2000000000 := by
        simp [sumDurations, badLight]
      have h2 : badLight.cycle_time = 2000000001 := rfl
      rw [h1, h2, show (2000000000 : ℚ) - 2000000001 = -1 by norm_num, abs_neg, abs_one,
        abs_of_nonneg (by norm_num : (0:ℚ) ≤ 2000000000),
        abs_of_nonneg (by norm_num : (0:ℚ) ≤ 2000000001),
        max_eq_right (by norm_num : (2000000000:ℚ) ≤ 2000000001)]
      norm_num
  · have h1 : sumDurations badLight.phases = 2000000000 := by
      simp [sumDurations, badLight]
    have h2 : badLight.cycle_time = 2000000001 := rfl
    rw [h1, h2]
    norm_num

/-! ### C6: `add_intersection` / `add_road` never reject -/

theorem lookupNode_setNodePos (ns : List (ℕ × Option (ℚ × ℚ))) (i : ℕ) (p : ℚ × ℚ) :
    lookupNode (setNodePos ns i p) i = some (some p) := by
  induction ns with
  | nil => simp [setNodePos, lookupNode]
  | cons hd tl ih =>
    obtain ⟨j, q⟩ := hd
    by_cases h : j = i
    · simp [setNodePos, lookupNode, h]
    · simp [setNodePos, lookupNode, h, ih]

theorem lookupRoad_setRoad (g : List ((ℕ × ℕ) × Road)) (e : ℕ × ℕ) (r : Road) :
    lookupRoad (setRoad g e r) e = some r := by
  induction g with
  | nil => simp [setRoad, lookupRoad]
  | cons hd tl ih =>
    obtain ⟨d, s⟩ := hd
    by_cases h : d = e
    · simp [setRoad, lookupRoad, h]
    · simp [setRoad, lookupRoad, h, ih]

theorem lookupNode_append_left (ns ms : List (ℕ × Option (ℚ × ℚ))) (i : ℕ)
    (h : (lookupNode ns i).isSome = true) :
    lookupNode (ns ++ ms) i = lookupNode ns i := by
  induction ns with
  | nil => simp [lookupNode] at h
  | cons hd tl ih =>
    obtain ⟨j, q⟩ := hd
    rw [List.cons_append, lookupNode, lookupNode]
    by_cases hj : j = i
    · rw [if_pos hj, if_pos hj]
    · rw [if_neg hj, if_neg hj]
      rw [lookupNode, if_neg hj] at h
      exact ih h

theorem lookupNode_append_self (ns : List (ℕ × Option (ℚ × ℚ))) (i : ℕ) (q : Option (ℚ × ℚ))
    (h : lookupNode ns i = none) :
    lookupNode (ns ++ [(i, q)]) i = some q := by
  induction ns with
  | nil => simp [lookupNode]
  | cons hd tl ih =>
    obtain ⟨j, r⟩ := hd
    by_cases hj : j = i
    · rw [lookupNode] at h
      rw [if_pos hj] at h
      exact absurd h (by simp)
    · rw [lookupNode, if_neg hj] at h
      rw [List.cons_append, lookupNode, if_neg hj]
      exact ih h

theorem lookupNode_ensureNode_self (ns : List (ℕ × Option (ℚ × ℚ))) (i : ℕ) :
    (lookupNode (ensureNode ns i) i).isSome = true := by
  unfold ensureNode
  split
  · assumption
  · rename_i h
    rw [lookupNode_append_self ns i none (Option.not_isSome_iff_eq_none.mp (by simpa using h))]
    rfl

theorem lookupNode_ensureNode_mono (ns : List (ℕ × Option (ℚ × ℚ))) (i j : ℕ)
    (h : (lookupNode ns i).isSome = true) :
    (lookupNode (ensureNode ns j) i).isSome = true := by
  unfold ensureNode
  split
  · exact h
  · rw [lookupNode_append_left ns [(j, none)] i h]
    exact h

/-- C6 amended: neither operation rejects.  `add_intersection` always stores
the given position under the id, silently overwriting an existing node, and
`add_road` always stores the derived road record under `(a, b)`, silently
creating any missing endpoint node. -/
theorem C6_operations_never_reject (g : CityGraph) (i : ℕ) (pos : ℚ × ℚ)
    (a b : ℕ) (len sp : ℚ) (lanes : ℕ) :
    lookupNode (add_intersection g i pos).nodes i = some (some pos) ∧
    lookupRoad (add_road g a b len sp lanes).edges (a, b) =
      some { length := len, speed_limit := sp, lanes := lanes,
             travel_time := len / (sp / (18/5)), capacity := (lanes : ℚ) * 1800,
             current_flow := 0 } ∧
    (lookupNode (add_road g a b len sp lanes).nodes a).isSome = true ∧
    (lookupNode (add_road g a b len sp lanes).nodes b).isSome = true := by
  refine ⟨lookupNode_setNodePos _ _ _, lookupRoad_setRoad _ _ _, ?_, ?_⟩
  · exact lookupNode_ensureNode_mono _ _ _ (lookupNode_ensureNode_self _ _)
  · exact lookupNode_ensureNode_self _ _

/-- C6 counterexample: re-adding intersection 1 does not fail and does not
leave the network unchanged (the stored position changes to `(5, 5)`), and
adding a road whose endpoint 2 does not exist does not fail either — the
edge is created together with the missing node. -/
theorem C6_counterexample :
    add_intersection g1 1 (5, 5) ≠ g1 ∧
    lookupNode (add_intersection g1 1 (5, 5)).nodes 1 = some (some (5, 5)) ∧
    add_road g1 1 2 100 36 1 ≠ g1 ∧
    lookupRoad (add_road g1 1 2 100 36 1).edges (1, 2) = some ⟨100, 36, 1, 10, 1800, 0⟩ ∧
    lookupNode (add_road g1 1 2 100 36 1).nodes 2 = some none := by
  refine ⟨?_, ?_, ?_, ?_, ?_⟩
  · intro h
    have h' : (⟨[(1, some ((5 : ℚ), (5 : ℚ)))], []⟩ : CityGraph) =
        ⟨[(1, some ((0 : ℚ), (0 : ℚ)))], []⟩ := h
    rw [CityGraph.mk.injEq] at h'
    have := h'.1
    simp only [List.cons.injEq, Prod.mk.injEq, Option.some.injEq] at this
    exact absurd this.1.2.1 (by norm_num)
  · exact lookupNode_setNodePos _ _ _
  · intro h
    have h' : (add_road g1 1 2 100 36 1).edges = ([] : List ((ℕ × ℕ) × Road)) :=
      congrArg CityGraph.edges h
    have h'' : (add_road g1 1 2 100 36 1).edges =
        [((1, 2), ⟨100, 36, 1, 100 / (36 / (18/5)), (1 : ℕ) * 1800, 0⟩)] := rfl
    rw [h''] at h'
    exact absurd h' (by simp)
  · have h'' : lookupRoad (add_road g1 1 2 100 36 1).edges (1, 2) =
        some ⟨100, 36, 1, 100 / (36 / (18/5)), (1 : ℕ) * 1800, 0⟩ :=
      lookupRoad_setRoad _ _ _
    rw [h'']
    norm_num
  · have h0 : lookupNode g1.nodes 2 = none := by
      simp [g1, add_intersection, setNodePos, lookupNode]
    have h1 : ensureNode g1.nodes 1 = g1.nodes := by
      unfold ensureNode
      rw [if_pos]
      simp [g1, add_intersection, setNodePos, lookupNode]
    show lookupNode (ensureNode (ensureNode g1.nodes 1) 2) 2 = some none
    rw [h1]
    unfold ensureNode
    rw [if_neg (by simp [h0]), lookupNode_append_self _ _ _ h0]

/-! ### C2: signals advance twice per tick, not once by `dt` -/

/-- C2 amended: in every tick of `run_simulation`, every Signal is advanced
*twice*: first by the hard-coded `simulation_speed` constant (0.05) inside
`move_vehicles`, then by `time_step` at the end of the loop body — each
advance taken modulo `cycle_time` separately. -/
theorem C2_two_updates_per_tick (st : SimState) :
    (simTick st).lights.traffic_lights =
      st.lights.traffic_lights.map
        (fun p => (p.1, (p.2.update st.simulation_speed).update st.time_step)) := by
  show ((moveVehicles st st.time_step).lights.update st.time_step).traffic_lights = _
  have h : (moveVehicles st st.time_step).lights = st.lights.update st.simulation_speed := rfl
  rw [h]
  show (st.lights.traffic_lights.map (fun p => (p.1, p.2.update st.simulation_speed))).map
      (fun p => (p.1, p.2.update st.time_step)) = _
  rw [List.map_map]
  rfl

/-- C2 counterexample: the claim predicts the signal clock becomes
`(0 + dt) mod 60 = 1` after one tick; the code leaves it at `21/20 = 1.05`,
because `move_vehicles` also advanced it by `simulation_speed = 0.05`. -/
theorem C2_counterexample :
    ((simTick stC2).lights.traffic_lights.map fun p => p.2.current_time) = [21/20] ∧
    pymod (0 + 1) 60 = 1 ∧ (21/20 : ℚ) ≠ 1 := by
  refine ⟨?_, ?_, by norm_num⟩
  · norm_num [simTick, moveVehicles, TrafficLightSystem.update, TrafficLight.update,
      totalCycleCount, resetAndCount, stC2, tlC2, pymod_eq_self]
  · rw [show ((0 : ℚ) + 1) = 1 by norm_num]
    exact pymod_eq_self _ _ (by norm_num) (by norm_num)

/-! ### C8: generation is deterministic in the seed -/

/-- C8: with the two external random sources made explicit — the Poisson
sampler `pois` and the seed-determined raw-draw state — `generate_vehicles`
is a pure function: two runs from equal draw states produce identical
vehicle lists (ids, origins, destinations, entry times and routes alike),
and feeding both into the simulation loop (which takes no random input at
all) produces identical runs. -/
theorem C8_generator_deterministic (pois : ℚ → ℕ → ℕ) (sp : ℕ → ℕ → Option (List ℕ))
    (nodes : List ℕ) (rate : ℚ) (horizon : ℕ)
    (g : List ((ℕ × ℕ) × Road)) (lights : TrafficLightSystem) (dt : ℚ) (n : ℕ)
    (s₁ s₂ : DrawState) (h : s₁ = s₂) :
    generate_vehicles pois sp nodes rate horizon s₁ =
      generate_vehicles pois sp nodes rate horizon s₂ ∧
    Except.map (fun vs => runSim (initState g lights vs dt) n)
        (generate_vehicles pois sp nodes rate horizon s₁) =
      Except.map (fun vs => runSim (initState g lights vs dt) n)
        (generate_vehicles pois sp nodes rate horizon s₂) := by
  subst h
  exact ⟨rfl, rfl⟩

/-- Witness for C8 at a concrete seeded stream, oracle samplers, a two-node
entry set and a one-tick horizon. -/
theorem C8_generator_deterministic_witness :
    generate_vehicles (fun _ u => u) (fun a b => some [a, b]) [1, 2] 0 1 ⟨fun _ => 0, 0⟩ =
      generate_vehicles (fun _ u => u) (fun a b => some [a, b]) [1, 2] 0 1 ⟨fun _ => 0, 0⟩ ∧
    Except.map (fun vs => runSim (initState [] ⟨[]⟩ vs 1) 0)
        (generate_vehicles (fun _ u => u) (fun a b => some [a, b]) [1, 2] 0 1 ⟨fun _ => 0, 0⟩) =
      Except.map (fun vs => runSim (initState [] ⟨[]⟩ vs 1) 0)
        (generate_vehicles (fun _ u => u) (fun a b => some [a, b]) [1, 2] 0 1 ⟨fun _ => 0, 0⟩) :=
  C8_generator_deterministic _ _ _ _ _ _ _ _ _ _ _ rfl

/-! ### C5: completion bookkeeping -/

/-- C5 amended: (1) a vehicle already at its route's last node at the start
of the vehicle-advance step is skipped and its `completion_time` is *not*
touched (so a degenerate single-node route keeps the sentinel forever);
(2) a `completion_time` once set (≠ -1) is never changed by a step;
(3) `completion_time` is set to the current tick in the very tick in which
the vehicle steps off its final edge onto the route's last node. -/
theorem C5_completion_bookkeeping (g : List ((ℕ × ℕ) × Road)) (lights : TrafficLightSystem)
    (t dt sf : ℚ) (v : Vehicle) (se : ℕ × ℕ) :
    (v.current_position = lastD v.route →
      (stepVehicle g lights t dt sf v).completion_time = v.completion_time) ∧
    (v.completion_time ≠ -1 →
      (stepVehicle g lights t dt sf v).completion_time = v.completion_time) ∧
    (v.entry_time ≤ t → v.current_position ≠ lastD v.route → v.current_edge = some se →
      se.2 = lastD v.route → v.completion_time = -1 →
      v.travel_time_remaining - dt * sf / congestionFactor (roadAt g se) ≤ 0 →
      (stepVehicle g lights t dt sf v).completion_time = t) := by
  refine ⟨?_, ?_, ?_⟩
  · intro hpos
    simp only [stepVehicle]
    by_cases h1 : t < v.entry_time
    · rw [if_pos h1]
    · rw [if_neg h1, if_pos hpos]
      split <;> rfl
  · intro hc
    simp only [stepVehicle]
    by_cases h1 : t < v.entry_time
    · rw [if_pos h1]
    · rw [if_neg h1]
      by_cases h2 : v.current_position = lastD v.route
      · rw [if_pos h2]
        split <;> rfl
      · rw [if_neg h2]
        rcases hE : v.current_edge with _ | se'
        · simp only [hE]
          rw [if_pos hc]
        · simp only [hE]
          split
          · exact finishCheck_completion_ne _ _ hc
          · exact finishCheck_completion_ne _ _ hc
  · intro hentry hpos hE hend hc httr
    simp only [stepVehicle, hE]
    rw [if_neg (not_lt.mpr hentry), if_neg hpos, if_pos httr]
    unfold finishCheck
    rw [if_pos ⟨show se.2 = lastD v.route from hend, hc⟩]

/-! ### C7: monotonicity on an edge -/

/-- C7 amended: while a vehicle is on an edge, `travel_time_remaining` never
increases under a step (for any flow snapshot, since the BPR factor is
always ≥ 1 > 0); and `progress_on_edge` does not decrease across a step
*when judged against the same congestion snapshot* — the hypothesis relates
the stored progress to the current snapshot's total time, which holds
whenever the edge's `current_flow` did not change since the progress was
written. -/
theorem C7_edge_monotonicity (g : List ((ℕ × ℕ) × Road)) (lights : TrafficLightSystem)
    (t dt sf : ℚ) (v : Vehicle) (se : ℕ × ℕ)
    (hse : v.current_edge = some se) (hdt : 0 ≤ dt) (hsf : 0 ≤ sf) :
    (stepVehicle g lights t dt sf v).travel_time_remaining ≤ v.travel_time_remaining ∧
    (v.entry_time ≤ t → v.current_position ≠ lastD v.route →
      0 < v.travel_time_remaining - dt * sf / congestionFactor (roadAt g se) →
      0 < (roadAt g se).travel_time →
      v.progress_on_edge ≤
        1 - v.travel_time_remaining /
          ((roadAt g se).travel_time * congestionFactor (roadAt g se)) →
      v.progress_on_edge ≤ (stepVehicle g lights t dt sf v).progress_on_edge) := by
  have hc1 : 0 < congestionFactor (roadAt g se) := congestionFactor_pos _
  have hdec : 0 ≤ dt * sf / congestionFactor (roadAt g se) :=
    div_nonneg (mul_nonneg hdt hsf) hc1.le
  constructor
  · simp only [stepVehicle]
    by_cases h1 : t < v.entry_time
    · rw [if_pos h1]
    · rw [if_neg h1]
      by_cases h2 : v.current_position = lastD v.route
      · rw [if_pos h2]
        split <;> exact le_refl _
      · rw [if_neg h2]
        simp only [hse]
        split
        · rw [finishCheck_ttr]
          show v.travel_time_remaining - dt * sf / congestionFactor (roadAt g se) ≤
            v.travel_time_remaining
          linarith
        · rw [finishCheck_ttr]
          show v.travel_time_remaining - dt * sf / congestionFactor (roadAt g se) ≤
            v.travel_time_remaining
          linarith
  · intro hentry hpos httr hT hprog
    simp only [stepVehicle, hse]
    rw [if_neg (not_lt.mpr hentry), if_neg hpos, if_neg (not_le.mpr httr), finishCheck_progress]
    show v.progress_on_edge ≤
      1 - (v.travel_time_remaining - dt * sf / congestionFactor (roadAt g se)) /
        ((roadAt g se).travel_time * congestionFactor (roadAt g se))
    have hTc : 0 < (roadAt g se).travel_time * congestionFactor (roadAt g se) :=
      mul_pos hT hc1
    have hmono :
        (v.travel_time_remaining - dt * sf / congestionFactor (roadAt g se)) /
            ((roadAt g se).travel_time * congestionFactor (roadAt g se)) ≤
          v.travel_time_remaining /
            ((roadAt g se).travel_time * congestionFactor (roadAt g se)) :=
      (div_le_div_right hTc).mpr (by linarith)
    linarith

/-! ### Tick-by-tick evaluation of the free-flow scenario -/

theorem runSim_step (st st' : SimState) (n : ℕ) (h : simTick st = st') :
    runSim st (n + 1) = runSim st' n := by
  show runSim (simTick st) n = runSim st' n
  rw [h]

theorem c1e1 : simTick st0 = c1s1 := by
  norm_num [simTick, moveVehicles, resetAndCount, flowCount, totalCycleCount,
    TrafficLightSystem.update, TrafficLightSystem.is_green, lookupLight,
    stepVehicle, finishCheck, congestionFactor, roadAt, lookupRoad,
    lastD, List.getLastD, List.indexOf, List.findIdx, List.findIdx.go, List.getD,
    Option.some_ne_none, none_ne_someEdge, st0, c1s1, c1st, c1veh, c1road]

theorem c1e2 : simTick c1s1 = c1s2 := by
  norm_num [simTick, moveVehicles, resetAndCount, flowCount, totalCycleCount,
    TrafficLightSystem.update, TrafficLightSystem.is_green, lookupLight,
    stepVehicle, finishCheck, congestionFactor, roadAt, lookupRoad,
    lastD, List.getLastD, List.indexOf, List.findIdx, List.findIdx.go, List.getD,
    Option.some_ne_none, none_ne_someEdge, c1s1, c1s2, c1st, c1veh, c1road]

theorem c1e3 : simTick c1s2 = c1s3 := by
  norm_num [simTick, moveVehicles, resetAndCount, flowCount, totalCycleCount,
    TrafficLightSystem.update, TrafficLightSystem.is_green, lookupLight,
    stepVehicle, finishCheck, congestionFactor, roadAt, lookupRoad,
    lastD, List.getLastD, List.indexOf, List.findIdx, List.findIdx.go, List.getD,
    Option.some_ne_none, none_ne_someEdge, c1s2, c1s3, c1st, c1veh, c1road]

theorem c1e4 : simTick c1s3 = c1s4 := by
  norm_num [simTick, moveVehicles, resetAndCount, flowCount, totalCycleCount,
    TrafficLightSystem.update, TrafficLightSystem.is_green, lookupLight,
    stepVehicle, finishCheck, congestionFactor, roadAt, lookupRoad,
    lastD, List.getLastD, List.indexOf, List.findIdx, List.findIdx.go, List.getD,
    Option.some_ne_none, none_ne_someEdge, c1s3, c1s4, c1st, c1veh, c1road]

theorem c1e5 : simTick c1s4 = c1s5 := by
  norm_num [simTick, moveVehicles, resetAndCount, flowCount, totalCycleCount,
    TrafficLightSystem.update, TrafficLightSystem.is_green, lookupLight,
    stepVehicle, finishCheck, congestionFactor, roadAt, lookupRoad,
    lastD, List.getLastD, List.indexOf, List.findIdx, List.findIdx.go, List.getD,
    Option.some_ne_none, none_ne_someEdge, c1s4, c1s5, c1st, c1veh, c1road]

theorem c1e6 : simTick c1s5 = c1s6 := by
  norm_num [simTick, moveVehicles, resetAndCount, flowCount, totalCycleCount,
    TrafficLightSystem.update, TrafficLightSystem.is_green, lookupLight,
    stepVehicle, finishCheck, congestionFactor, roadAt, lookupRoad,
    lastD, List.getLastD, List.indexOf, List.findIdx, List.findIdx.go, List.getD,
    Option.some_ne_none, none_ne_someEdge, c1s5, c1s6, c1st, c1veh, c1road]

theorem c1e7 : simTick c1s6 = c1s7 := by
  norm_num [simTick, moveVehicles, resetAndCount, flowCount, totalCycleCount,
    TrafficLightSystem.update, TrafficLightSystem.is_green, lookupLight,
    stepVehicle, finishCheck, congestionFactor, roadAt, lookupRoad,
    lastD, List.getLastD, List.indexOf, List.findIdx, List.findIdx.go, List.getD,
    Option.some_ne_none, none_ne_someEdge, c1s6, c1s7, c1st, c1veh, c1road]

theorem c1e8 : simTick c1s7 = c1s8 := by
  norm_num [simTick, moveVehicles, resetAndCount, flowCount, totalCycleCount,
    TrafficLightSystem.update, TrafficLightSystem.is_green, lookupLight,
    stepVehicle, finishCheck, congestionFactor, roadAt, lookupRoad,
    lastD, List.getLastD, List.indexOf, List.findIdx, List.findIdx.go, List.getD,
    Option.some_ne_none, none_ne_someEdge, c1s7, c1s8, c1st, c1veh, c1road]

theorem c1e9 : simTick c1s8 = c1s9 := by
  norm_num [simTick, moveVehicles, resetAndCount, flowCount, totalCycleCount,
    TrafficLightSystem.update, TrafficLightSystem.is_green, lookupLight,
    stepVehicle, finishCheck, congestionFactor, roadAt, lookupRoad,
    lastD, List.getLastD, List.indexOf, List.findIdx, List.findIdx.go, List.getD,
    Option.some_ne_none, none_ne_someEdge, c1s8, c1s9, c1st, c1veh, c1road]

theorem c1e10 : simTick c1s9 = c1s10 := by
  norm_num [simTick, moveVehicles, resetAndCount, flowCount, totalCycleCount,
    TrafficLightSystem.update, TrafficLightSystem.is_green, lookupLight,
    stepVehicle, finishCheck, congestionFactor, roadAt, lookupRoad,
    lastD, List.getLastD, List.indexOf, List.findIdx, List.findIdx.go, List.getD,
    Option.some_ne_none, none_ne_someEdge, c1s9, c1s10, c1st, c1veh, c1road]

theorem c1_run6 : runSim st0 6 = c1s6 := by
  rw [show (6:ℕ) = 5+1 from rfl, runSim_step st0 c1s1 5 c1e1,
      show (5:ℕ) = 4+1 from rfl, runSim_step c1s1 c1s2 4 c1e2,
      show (4:ℕ) = 3+1 from rfl, runSim_step c1s2 c1s3 3 c1e3,
      show (3:ℕ) = 2+1 from rfl, runSim_step c1s3 c1s4 2 c1e4,
      show (2:ℕ) = 1+1 from rfl, runSim_step c1s4 c1s5 1 c1e5,
      show (1:ℕ) = 0+1 from rfl, runSim_step c1s5 c1s6 0 c1e6]
  rfl

theorem c1_run7 : runSim st0 7 = c1s7 := by
  rw [show (7:ℕ) = 6+1 from rfl, runSim_step st0 c1s1 6 c1e1,
      show (6:ℕ) = 5+1 from rfl, runSim_step c1s1 c1s2 5 c1e2,
      show (5:ℕ) = 4+1 from rfl, runSim_step c1s2 c1s3 4 c1e3,
      show (4:ℕ) = 3+1 from rfl, runSim_step c1s3 c1s4 3 c1e4,
      show (3:ℕ) = 2+1 from rfl, runSim_step c1s4 c1s5 2 c1e5,
      show (2:ℕ) = 1+1 from rfl, runSim_step c1s5 c1s6 1 c1e6,
      show (1:ℕ) = 0+1 from rfl, runSim_step c1s6 c1s7 0 c1e7]
  rfl

theorem c1_run10 : runSim st0 10 = c1s10 := by
  rw [show (10:ℕ) = 9+1 from rfl, runSim_step st0 c1s1 9 c1e1,
      show (9:ℕ) = 8+1 from rfl, runSim_step c1s1 c1s2 8 c1e2,
      show (8:ℕ) = 7+1 from rfl, runSim_step c1s2 c1s3 7 c1e3,
      show (7:ℕ) = 6+1 from rfl, runSim_step c1s3 c1s4 6 c1e4,
      show (6:ℕ) = 5+1 from rfl, runSim_step c1s4 c1s5 5 c1e5,
      show (5:ℕ) = 4+1 from rfl, runSim_step c1s5 c1s6 4 c1e6,
      show (4:ℕ) = 3+1 from rfl, runSim_step c1s6 c1s7 3 c1e7,
      show (3:ℕ) = 2+1 from rfl, runSim_step c1s7 c1s8 2 c1e8,
      show (2:ℕ) = 1+1 from rfl, runSim_step c1s8 c1s9 1 c1e9,
      show (1:ℕ) = 0+1 from rfl, runSim_step c1s9 c1s10 0 c1e10]
  rfl

/-! ### C1 -/

/-- C1 counterexample: running the free-flow scenario, the vehicle's
completion_time after 10 ticks is 6, not 10 — the source uses
`vehicle_speed_factor = 2.0` (not 1) and the vehicle itself is counted in
`current_flow`, so the congestion factor is `1 + 0.15/1800^4`, not 1. -/
theorem C1_counterexample :
    ((runSim st0 10).vehicles.map Vehicle.completion_time) = [6] ∧ (6 : ℚ) ≠ 10 := by
  constructor
  · rw [c1_run10]
    rfl
  · norm_num

/-- C1 amended: in the free-flow scenario the single vehicle reaches the
destination at tick 6 exactly (still unfinished at the end of tick 5):
each tick decrements `travel_time_remaining` by
`dt * vehicle_speed_factor / congestion` with `vehicle_speed_factor = 2.0`
and congestion `1 + 0.15 * (1/1800)^4` once the vehicle occupies the edge. -/
theorem C1_vehicle_completes_at_tick6 :
    ((runSim st0 7).vehicles.map Vehicle.completion_time) = [6] ∧
    ((runSim st0 6).vehicles.map Vehicle.completion_time) = [-1] := by
  constructor
  · rw [c1_run7]
    rfl
  · rw [c1_run6]
    rfl

/-! ### C4: flow conservation -/

theorem flowCount_cons (v : Vehicle) (vs : List Vehicle) (e : ℕ × ℕ) :
    flowCount (v :: vs) e = (if v.current_edge = some e then 1 else 0) + flowCount vs e := by
  by_cases h : v.current_edge = some e
  · simp [flowCount, List.filter_cons, h]
    omega
  · simp [flowCount, List.filter_cons, h]

theorem onEdgeCount_cons (v : Vehicle) (vs : List Vehicle) :
    onEdgeCount (v :: vs) = (if v.current_edge = none then 0 else 1) + onEdgeCount vs := by
  by_cases h : v.current_edge = none
  · simp [onEdgeCount, List.filter_cons, h]
  · simp [onEdgeCount, List.filter_cons, h]
    omega

theorem sum_map_add_nat {α : Type} (l : List α) (f g : α → ℕ) :
    (l.map (fun x => f x + g x)).sum = (l.map f).sum + (l.map g).sum := by
  induction l with
  | nil => rfl
  | cons a l ih =>
    simp [List.map_cons, List.sum_cons, ih]
    omega

theorem sum_map_ind_eq_one (es : List (ℕ × ℕ)) (e₀ : ℕ × ℕ) (hnd : es.Nodup) (hm : e₀ ∈ es) :
    (es.map (fun e => if e₀ = e then 1 else 0)).sum = 1 := by
  induction es with
  | nil => cases hm
  | cons a es ih =>
    rw [List.nodup_cons] at hnd
    by_cases h : e₀ = a
    · subst h
      have hz : ∀ x ∈ es.map (fun e => if e₀ = e then (1 : ℕ) else 0), x = 0 := by
        intro x hx
        obtain ⟨e, he, rfl⟩ := List.mem_map.mp hx
        refine if_neg ?_
        intro hh
        subst hh
        exact hnd.1 he
      simp [List.sum_cons, List.sum_eq_zero hz]
    · rcases List.mem_cons.mp hm with h' | h'
      · exact absurd h' h
      · simp [List.sum_cons, if_neg h, ih hnd.2 h']

theorem sum_map_flowCount (vs : List Vehicle) (es : List (ℕ × ℕ)) (hnd : es.Nodup)
    (hcov : ∀ v ∈ vs, ∀ e, v.current_edge = some e → e ∈ es) :
    (es.map (fun e => flowCount vs e)).sum = onEdgeCount vs := by
  induction vs with
  | nil =>
    show _ = onEdgeCount []
    rw [show onEdgeCount [] = 0 from rfl]
    apply List.sum_eq_zero
    intro x hx
    obtain ⟨e, he, rfl⟩ := List.mem_map.mp hx
    rfl
  | cons v vs ih =>
    have hcov' : ∀ w ∈ vs, ∀ e, w.current_edge = some e → e ∈ es :=
      fun w hw => hcov w (List.mem_cons_of_mem _ hw)
    have h1 : (es.map (fun e => flowCount (v :: vs) e)).sum =
        (es.map (fun e => (if v.current_edge = some e then 1 else 0) + flowCount vs e)).sum := by
      simp only [flowCount_cons]
    rw [h1, sum_map_add_nat, ih hcov', onEdgeCount_cons]
    congr 1
    rcases hE : v.current_edge with _ | e₀
    · rw [if_pos rfl]
      apply List.sum_eq_zero
      intro x hx
      obtain ⟨e, he, rfl⟩ := List.mem_map.mp hx
      exact if_neg (none_ne_someEdge e)
    · simp only [hE, Option.some.injEq]
      rw [if_neg (Option.some_ne_none e₀)]
      exact sum_map_ind_eq_one es e₀ hnd (hcov v (List.mem_cons_self _ _) e₀ hE)

/-- C4 amended: the flow-conservation invariant holds of the *mid-tick
snapshot* written by step 1 of `move_vehicles` (reset + count, before any
vehicle moves): there, the sum of `current_flow` over all roads equals the
number of vehicles occupying an edge, provided the graph's edge keys are
distinct and every occupied edge exists in the graph.  (It fails for the
post-tick state, see the counterexample.) -/
theorem C4_flow_invariant_snapshot (st : SimState) (dt : ℚ)
    (hnd : (st.graph.map Prod.fst).Nodup)
    (hcov : ∀ v ∈ st.vehicles, ∀ e, v.current_edge = some e → e ∈ st.graph.map Prod.fst) :
    sumFlows (moveVehicles st dt).graph = onEdgeCount st.vehicles := by
  have hg : (moveVehicles st dt).graph = resetAndCount st.graph st.vehicles := rfl
  rw [hg]
  unfold sumFlows resetAndCount
  rw [List.map_map]
  have hcomp : st.graph.map ((fun p : (ℕ × ℕ) × Road => p.2.current_flow) ∘
      (fun p : (ℕ × ℕ) × Road => (p.1, { p.2 with current_flow := flowCount st.vehicles p.1 }))) =
      st.graph.map (fun p => flowCount st.vehicles p.1) := rfl
  rw [hcomp]
  have h2 : st.graph.map (fun p => flowCount st.vehicles p.1) =
      (st.graph.map Prod.fst).map (fun e => flowCount st.vehicles e) := by
    rw [List.map_map]
    rfl
  rw [h2]
  exact sum_map_flowCount st.vehicles _ hnd hcov

/-- Witness for C4's amended statement on a state with one vehicle on the
single edge. -/
theorem C4_flow_invariant_snapshot_witness :
    sumFlows (moveVehicles stC4w 1).graph = onEdgeCount stC4w.vehicles := by
  apply C4_flow_invariant_snapshot
  · show ((stC4w.graph.map Prod.fst)).Nodup
    simp [stC4w, c1st]
  · intro v hv e he
    simp only [stC4w, c1st, List.mem_singleton] at hv
    subst hv
    have he' : (some ((1 : ℕ), (2 : ℕ)) : Option (ℕ × ℕ)) = some e := he
    rw [Option.some_inj] at he'
    subst he'
    simp [stC4w, c1st]

/-- C4 counterexample: the claim as stated — over the post-tick state read
by metrics — is false: after tick 0 of the free-flow scenario the vehicle
occupies the edge (entered mid-tick), yet every road's `current_flow` is
still the pre-movement snapshot value 0. -/
theorem C4_counterexample :
    sumFlows (simTick st0).graph = 0 ∧ onEdgeCount (simTick st0).vehicles = 1 ∧
    sumFlows (simTick st0).graph ≠ onEdgeCount (simTick st0).vehicles := by
  refine ⟨?_, ?_, ?_⟩ <;> rw [c1e1]
  · rfl
  · rfl
  · decide

/-! ### C5: counterexample and witness -/

theorem c5e1 : simTick stC5 = c5s1 := by
  norm_num [simTick, moveVehicles, resetAndCount, flowCount, totalCycleCount,
    TrafficLightSystem.update, stepVehicle, lastD, List.getLastD,
    Option.some_ne_none, none_ne_someEdge, stC5, c5s1, c5st, vDeg, vDegMarked]

theorem c5e2 : simTick c5s1 = c5s2 := by
  norm_num [simTick, moveVehicles, resetAndCount, flowCount, totalCycleCount,
    TrafficLightSystem.update, stepVehicle, lastD, List.getLastD,
    Option.some_ne_none, none_ne_someEdge, c5s1, c5s2, c5st, vDegMarked]

theorem c5e3 : simTick c5s2 = c5s3 := by
  norm_num [simTick, moveVehicles, resetAndCount, flowCount, totalCycleCount,
    TrafficLightSystem.update, stepVehicle, lastD, List.getLastD,
    Option.some_ne_none, none_ne_someEdge, c5s2, c5s3, c5st, vDegMarked]

/-- C5 counterexample: a vehicle whose route degenerated to the single
origin node is at its route's last node, with no current edge and the
sentinel set, at the start of tick 0 — yet neither that tick nor any later
tick ever sets its `completion_time` (the early `continue` only refreshes
`last_position`); the claim demands `completion_time = 0` after tick 0. -/
theorem C5_counterexample :
    ((simTick stC5).vehicles.map Vehicle.completion_time) = [-1] ∧
    ((runSim stC5 3).vehicles.map Vehicle.completion_time) = [-1] ∧
    (-1 : ℚ) ≠ 0 := by
  refine ⟨?_, ?_, by norm_num⟩
  · rw [c5e1]
    rfl
  · rw [show (3:ℕ) = 2+1 from rfl, runSim_step stC5 c5s1 2 c5e1,
        show (2:ℕ) = 1+1 from rfl, runSim_step c5s1 c5s2 1 c5e2,
        show (1:ℕ) = 0+1 from rfl, runSim_step c5s2 c5s3 0 c5e3]
    rfl

/-- Witness for C5's amended statement: a vehicle at its route's end is
skipped with `completion_time` untouched; a stamped `completion_time`
survives a step; a vehicle clearing its final edge is stamped with the
current tick. -/
theorem C5_completion_bookkeeping_witness :
    (stepVehicle gW ⟨[]⟩ 3 1 2 vAtEnd).completion_time = vAtEnd.completion_time ∧
    (stepVehicle gW ⟨[]⟩ 3 1 2 vDone7).completion_time = vDone7.completion_time ∧
    (stepVehicle gW ⟨[]⟩ 5 1 2 vArr).completion_time = 5 := by
  refine ⟨(C5_completion_bookkeeping gW ⟨[]⟩ 3 1 2 vAtEnd (0, 0)).1 rfl,
    (C5_completion_bookkeeping gW ⟨[]⟩ 3 1 2 vDone7 (0, 0)).2.1 ?_,
    (C5_completion_bookkeeping gW ⟨[]⟩ 5 1 2 vArr (1, 2)).2.2 ?_ ?_ rfl rfl rfl ?_⟩
  · norm_num [vDone7, c1veh]
  · norm_num [vArr, c1veh]
  · decide
  · norm_num [vArr, c1veh, gW, c1road, roadAt, lookupRoad, congestionFactor]

/-! ### C7: witness and counterexample -/

/-- Witness for C7's amended statement: on the free edge the vehicle's
remaining time drops from 10 to 8 and its progress rises from 0 to 1/5. -/
theorem C7_edge_monotonicity_witness :
    (stepVehicle gW ⟨[]⟩ 0 1 2 vFresh).travel_time_remaining ≤ vFresh.travel_time_remaining ∧
    vFresh.progress_on_edge ≤ (stepVehicle gW ⟨[]⟩ 0 1 2 vFresh).progress_on_edge := by
  refine ⟨(C7_edge_monotonicity gW ⟨[]⟩ 0 1 2 vFresh (1, 2) rfl (by norm_num) (by norm_num)).1,
    (C7_edge_monotonicity gW ⟨[]⟩ 0 1 2 vFresh (1, 2) rfl (by norm_num) (by norm_num)).2
      ?_ ?_ ?_ ?_ ?_⟩
  · norm_num [vFresh, c1veh]
  · decide
  · norm_num [vFresh, c1veh, gW, c1road, roadAt, lookupRoad, congestionFactor]
  · norm_num [gW, c1road, roadAt, lookupRoad]
  · norm_num [vFresh, c1veh, gW, c1road, roadAt, lookupRoad, congestionFactor]

theorem c7step1 : stepVehicle gHi ⟨[]⟩ 1 1 2 vOn = vMid := by
  norm_num [stepVehicle, finishCheck, congestionFactor, roadAt, lookupRoad,
    lastD, List.getLastD, Option.some_ne_none, none_ne_someEdge,
    gHi, roadHi, vOn, vMid, c1veh]

theorem c7step2 : stepVehicle gLo ⟨[]⟩ 2 1 2 vMid = vEnd := by
  norm_num [stepVehicle, finishCheck, congestionFactor, roadAt, lookupRoad,
    lastD, List.getLastD, Option.some_ne_none, none_ne_someEdge,
    gLo, roadLo, vMid, vEnd, c1veh]

/-- C7 counterexample: across two consecutive vehicle-advance steps in
which the edge's `current_flow` drops from 3600 to 0 (other vehicles left),
the vehicle stays on the edge yet its `progress_on_edge` *decreases* (from
5/289 to −182/85): the claim's "progress_on_edge is non-decreasing … for
all tick sequences, including ones where the edge's current_flow changes"
is false on the code. -/
theorem C7_counterexample :
    (stepVehicle gHi ⟨[]⟩ 1 1 2 vOn).current_edge = some (1, 2) ∧
    (stepVehicle gLo ⟨[]⟩ 2 1 2 (stepVehicle gHi ⟨[]⟩ 1 1 2 vOn)).current_edge = some (1, 2) ∧
    (stepVehicle gLo ⟨[]⟩ 2 1 2 (stepVehicle gHi ⟨[]⟩ 1 1 2 vOn)).progress_on_edge <
      (stepVehicle gHi ⟨[]⟩ 1 1 2 vOn).progress_on_edge := by
  rw [c7step1, c7step2]
  refine ⟨rfl, rfl, ?_⟩
  norm_num [vMid, vEnd, c1veh]

/-! ### C9 -/

/-- C9 (code bug): `get_average_travel_time` averages
`simulation_time - entry_time` over the vehicles standing at their route's
end, so a completed vehicle's contribution keeps growing after completion:
with one vehicle that entered at 0 and completed at 5, a query at
`simulation_time = 20` yields 20, while the spec's metric — the mean of
`completion_time - entry_time` over completed vehicles — yields 5. -/
theorem C9_average_travel_time_uses_clock :
    get_average_travel_time stC9 = 20 ∧ avgTravelTimeSpec stC9 = 5 ∧ (20 : ℚ) ≠ 5 := by
  refine ⟨?_, ?_, by norm_num⟩
  · norm_num [get_average_travel_time, stC9, vDone, c1veh, c1st, c1road, lastD, List.getLastD]
  · norm_num [avgTravelTimeSpec, stC9, vDone, c1veh, c1st, c1road]
